import Mathlib

/-!
Shallow embedding of `audio_alert-backend/server.py`, a Flask inference
service.  External effects (the ffmpeg subprocess, librosa/VGGish, the Keras
classifier, the filesystem) are modelled as an explicit request environment
`ReqEnv`; the handler `predict_audio` is a pure function of that environment
returning the HTTP status, the JSON body, the final existence of the two temp
files, and a trace of which pipeline stages ran.  Probabilities are modelled
as exact rationals, since no claim depends on floating-point rounding.
-/

set_option autoImplicit false
set_option maxRecDepth 4000

namespace Server

/-- The constant `CLASS_NAMES` from server.py: the fixed ordered label set. -/
def CLASS_NAMES : List String :=
  ["baby_cry", "boiling_water", "door_knock", "cat_meow", "background", "dog_bark"]

/-- The constant `NUM_CLASSES = len(CLASS_NAMES)`. -/
def NUM_CLASSES : Nat := CLASS_NAMES.length

/-- The constant `EMBEDDING_SIZE = 128`. -/
def EMBEDDING_SIZE : Nat := 128

/-- The constant `SAMPLE_RATE = 16000`. -/
def SAMPLE_RATE : Nat := 16000

/-- Fixed temp path for the uploaded blob (`temp_audio.webm`; the
environment-dependent `BASE_DIR` directory component is irrelevant to every
claim and omitted). -/
def TEMP_WEBM : String := "temp_audio.webm"

/-- Fixed temp path for the transcoded file (`temp_audio.wav`). -/
def TEMP_WAV : String := "temp_audio.wav"

/-- Outcome of the `subprocess.run` invocation of ffmpeg, as seen by
`convert_webm_to_wav`: the process ran and exited with a code (stderr text
captured), or raised `FileNotFoundError` (ffmpeg not installed), or raised
some other exception. -/
inductive FfmpegOutcome where
  | ranWith (code : Int) (stderr : String)
  | fileNotFound
  | otherExc (msg : String)
  deriving DecidableEq, Repr

/-- The ffmpeg command list built by `convert_webm_to_wav`. -/
def ffmpegCmd (webmPath wavPath : String) (sr : Nat) : List String :=
  ["ffmpeg", "-y", "-i", webmPath, "-ac", "1", "-ar", toString sr, wavPath]

/-- The adapter `convert_webm_to_wav(webm_path, wav_path, sr)`: returns `True` iff the
subprocess ran and exited 0; `FileNotFoundError`, any other exception, and a
non-zero exit code all return `False`.  The function never propagates an
exception (it is total). -/
def convert_webm_to_wav (webmPath wavPath : String) (sr : Nat)
    (o : FfmpegOutcome) : Bool :=
  match o with
  | .ranWith code _ => if code ≠ 0 then false else true
  | .fileNotFound => false
  | .otherExc _ => false

/-- The numpy array returned by `GLOBAL_VGGISH_MODEL(waveform).numpy()`:
either the typical 2-d `(T, 128)` shape or a 3-d shape with a leading batch
dimension (squeezed out by the code). -/
inductive EmbArray where
  | two (e : List (List ℚ))
  | three (e : List (List (List ℚ)))
  deriving DecidableEq, Repr

/-- Outcome of `librosa.load` plus VGGish inference inside
`load_and_extract_feature`: either some step raised, or an embeddings array
was produced. -/
inductive ExtractOutcome where
  | raises (msg : String)
  | embeds (arr : EmbArray)
  deriving DecidableEq, Repr

/-- Model of `np.squeeze(e, axis=0)` on a 3-d array: succeeds iff the leading axis has
size 1 (otherwise numpy raises `ValueError`, modelled as `none`). -/
def squeezeBatch : List (List (List ℚ)) → Option (List (List ℚ))
  | [m] => some m
  | _ => none

/-- Pointwise vector addition (`zipWith (+)`). -/
def vecAdd (a b : List ℚ) : List ℚ := List.zipWith (· + ·) a b

/-- Model of `np.mean(embeddings, axis=0)` for a `(T, 128)` array with `T > 0`:
column sums divided by the number of rows. -/
def meanAxis0 (e : List (List ℚ)) : List ℚ :=
  (e.foldr vecAdd (List.replicate EMBEDDING_SIZE 0)).map
    (fun x => x / (e.length : ℚ))

/-- True exactly when `load_and_extract_feature` hits its `except` branch:
load/inference raised, or the defensive `np.squeeze(…, axis=0)` raised
because a 3-d array's leading axis was not of size 1. -/
def extractionRaises : ExtractOutcome → Bool
  | .raises _ => true
  | .embeds (.two _) => false
  | .embeds (.three e3) => decide (e3.length ≠ 1)

/-- The extractor `load_and_extract_feature(file_path)`: returns the mean VGGish embedding
(a `(128,)` vector) of the loaded waveform, a zero vector when zero time
frames were produced, and `None` when any exception occurred. -/
def load_and_extract_feature (o : ExtractOutcome) : Option (List ℚ) :=
  match o with
  | .raises _ => none
  | .embeds arr =>
    match (match arr with
           | .two e => some e
           | .three e3 => squeezeBatch e3) with
    | none => none
    | some e =>
      if e.length > 0 then some (meanAxis0 e)
      else some (List.replicate EMBEDDING_SIZE 0)

/-- Outcome of `classifier_model.predict(features)` for this request: either
it raised, or it produced an output row `predictions[0]` of some width. -/
inductive PredictOutcome where
  | raises (msg : String)
  | output (probs : List ℚ)
  deriving DecidableEq, Repr

/-- First-max index accumulator: `np.argmax` scanning semantics (strictly
greater value replaces the current best, so ties keep the first index). -/
def argmaxFrom : List ℚ → Nat → Nat → ℚ → Nat
  | [], _, b, _ => b
  | x :: xs, i, b, v =>
    if v < x then argmaxFrom xs (i + 1) i x else argmaxFrom xs (i + 1) b v

/-- Model of `np.argmax(probs)`: first index of the maximum; `none` models the
`ValueError` numpy raises on an empty array. -/
def argmaxIdx : List ℚ → Option Nat
  | [] => none
  | x :: xs => some (argmaxFrom xs 1 0 x)

/-- JSON values occurring in the handler's response bodies. -/
inductive JVal where
  | s (v : String)
  | num (v : ℚ)
  | arr (v : List ℚ)
  | obj (v : List (String × ℚ))
  deriving DecidableEq, Repr

/-- A JSON object, as an ordered association list (Python dicts preserve
insertion order and all keys used here are distinct literals). -/
abbrev JObj := List (String × JVal)

/-- Environment of one `POST /predict` request: what the black-box
collaborators (Flask upload, ffmpeg, librosa/VGGish, Keras classifier,
filesystem `os.remove`) do when invoked. -/
structure ReqEnv where
  /-- Whether `"audio_file" in request.files` holds -/
  hasAudioField : Bool
  /-- The value of `request.files["audio_file"].filename` -/
  filename : String
  /-- exception raised by `audio_file.save(...)`, if any -/
  saveRaises : Option String
  /-- behaviour of the ffmpeg subprocess invocation -/
  ffmpeg : FfmpegOutcome
  /-- whether a possibly truncated wav file exists after ffmpeg ran and exited
  non-zero (`ffmpeg -y` may create the output before failing) -/
  wavCreatedOnFfmpegFail : Bool
  /-- behaviour of librosa load + VGGish inference -/
  extract : ExtractOutcome
  /-- behaviour of `classifier_model.predict` -/
  classOut : PredictOutcome
  /-- Whether `os.remove(temp_audio.webm)` raises `OSError` -/
  removeWebmFails : Bool
  /-- Whether `os.remove(temp_audio.wav)` raises `OSError` -/
  removeWavFails : Bool
  deriving DecidableEq, Repr

/-- Result of the try-block of `predict_audio`, before the `finally` cleanup:
status, body, whether the temp path variables were assigned (non-`None`),
which temp files exist on disk, and which pipeline stages ran. -/
structure PreResult where
  status : Nat
  body : JObj
  pathsSet : Bool
  webm : Bool
  wav : Bool
  saved : Bool
  transcoded : Bool
  extracted : Bool
  predicted : Bool
  deriving DecidableEq, Repr

/-- Error message for a missing `audio_file` part. -/
def ERR_NO_FILE : String := "No audio_file part in the request"

/-- Error message for an empty filename. -/
def ERR_NO_SELECTED : String := "No selected file"

/-- Error message when ffmpeg conversion fails (the two adjacent string
literals in the source concatenate to this). -/
def ERR_CONVERT : String :=
  "Failed to convert audio with ffmpeg. Ensure ffmpeg is installed and accessible from PATH."

/-- Error message when feature extraction returns `None`. -/
def ERR_EXTRACT : String := "Feature extraction failed even after ffmpeg conversion."

/-- Generic message of the catch-all `except` branch. -/
def ERR_INTERNAL : String := "Internal server error"

/-- The text `str(e)` for `np.argmax` on an empty array. -/
def MSG_ARGMAX_EMPTY : String := "attempt to get argmax of an empty sequence"

/-- The text `str(e)` for an out-of-range Python list index (`CLASS_NAMES[idx]`). -/
def MSG_LIST_INDEX : String := "list index out of range"

/-- The text `str(e)` for an out-of-range numpy index (`probs[i]`). -/
def npIndexErrMsg (i n : Nat) : String :=
  "index " ++ toString i ++ " is out of bounds for axis 0 with size " ++ toString n

/-- Body of the catch-all 500 response. -/
def internalErrBody (details : String) : JObj :=
  [("error", .s ERR_INTERNAL), ("details", .s details)]

/-- The try-block of `predict_audio`, translated branch for branch. -/
def predictTry (env : ReqEnv) : PreResult :=
  if env.hasAudioField = false then
    ⟨400, [("error", .s ERR_NO_FILE)], false, false, false, false, false, false, false⟩
  else if env.filename = "" then
    ⟨400, [("error", .s ERR_NO_SELECTED)], false, false, false, false, false, false, false⟩
  else
    match env.saveRaises with
    | some msg =>
      -- audio_file.save raised: caught by the catch-all branch
      ⟨500, internalErrBody msg, true, false, false, false, false, false, false⟩
    | none =>
      if convert_webm_to_wav TEMP_WEBM TEMP_WAV SAMPLE_RATE env.ffmpeg = false then
        ⟨500, [("error", .s ERR_CONVERT)], true, true,
          (match env.ffmpeg with
           | .ranWith _ _ => env.wavCreatedOnFfmpegFail
           | _ => false),
          true, true, false, false⟩
      else
        match load_and_extract_feature env.extract with
        | none =>
          ⟨500, [("error", .s ERR_EXTRACT)], true, true, true, true, true, true, false⟩
        | some _features =>
          match env.classOut with
          | .raises msg =>
            ⟨500, internalErrBody msg, true, true, true, true, true, true, true⟩
          | .output probs =>
            match argmaxIdx probs with
            | none =>
              -- np.argmax([]) raises ValueError: caught by the catch-all
              ⟨500, internalErrBody MSG_ARGMAX_EMPTY,
                true, true, true, true, true, true, true⟩
            | some idx =>
              if idx < NUM_CLASSES then
                if NUM_CLASSES ≤ probs.length then
                  ⟨200,
                    [("predicted_class", .s (CLASS_NAMES.getD idx "")),
                     ("probabilities", .arr probs),
                     ("probabilities_dict", .obj (CLASS_NAMES.zip (probs.take NUM_CLASSES)))],
                    true, true, true, true, true, true, true⟩
                else
                  -- probs[i] raised IndexError at i = len(probs) in the dict
                  -- comprehension: caught by the catch-all
                  ⟨500, internalErrBody (npIndexErrMsg probs.length probs.length),
                    true, true, true, true, true, true, true⟩
              else
                -- CLASS_NAMES[idx] raised IndexError: caught by the catch-all
                ⟨500, internalErrBody MSG_LIST_INDEX,
                  true, true, true, true, true, true, true⟩

/-- Final observable result of one `POST /predict` request, after the
`finally` cleanup ran. -/
structure HandlerResult where
  status : Nat
  body : JObj
  webmExists : Bool
  wavExists : Bool
  savedUpload : Bool
  ranTranscode : Bool
  ranExtract : Bool
  ranPredict : Bool
  deriving DecidableEq, Repr

/-- The handler `predict_audio()`: the try-block followed by the `finally` loop, which
for each assigned temp path removes the file if it exists, swallowing
`OSError` (a failed remove leaves the file in place but never changes the
response). -/
def predict_audio (env : ReqEnv) : HandlerResult :=
  let pre := predictTry env
  { status := pre.status
    body := pre.body
    webmExists := pre.webm && (!pre.pathsSet || env.removeWebmFails)
    wavExists := pre.wav && (!pre.pathsSet || env.removeWavFails)
    savedUpload := pre.saved
    ranTranscode := pre.transcoded
    ranExtract := pre.extracted
    ranPredict := pre.predicted }

/-- The endpoint `GET /health`: fixed body and status. -/
def health : JObj × Nat := ([("status", .s "ok")], 200)

/-- Key lookup in a JSON object (first binding wins, as in a Python dict
built with distinct keys). -/
def getKey (k : String) : JObj → Option JVal
  | [] => none
  | (k', v) :: rest => if k' = k then some v else getKey k rest

/-- A request environment on the happy path: valid upload, successful
ffmpeg run, zero-frame embedding, classifier output of width 6 with its
maximum on the last label (`dog_bark`). -/
def okEnv : ReqEnv :=
  { hasAudioField := true
    filename := "clip.webm"
    saveRaises := none
    ffmpeg := .ranWith 0 ""
    wavCreatedOnFfmpegFail := false
    extract := .embeds (.two [])
    classOut := .output [Rat.mk' 1 10, Rat.mk' 1 10, Rat.mk' 1 10,
      Rat.mk' 1 10, Rat.mk' 1 10, Rat.mk' 1 2]
    removeWebmFails := false
    removeWavFails := false }

/-- Like `okEnv` but the classifier outputs 7 probabilities (argmax still at
index 5): models a classifier artifact one unit wider than the label set. -/
def wideEnv : ReqEnv :=
  { okEnv with classOut := .output [Rat.mk' 1 10, Rat.mk' 1 10, Rat.mk' 1 10,
      Rat.mk' 1 10, Rat.mk' 1 10, Rat.mk' 2 5, Rat.mk' 1 10] }

end Server

namespace Server

/-! ### General lemmas about the embedded definitions -/

theorem argmaxFrom_lt (l : List ℚ) :
    ∀ (i b : Nat) (v : ℚ), b < i → argmaxFrom l i b v < i + l.length := by
  induction l with
  | nil =>
    intro i b v h
    simpa [argmaxFrom] using h
  | cons x xs ih =>
    intro i b v h
    simp only [argmaxFrom, List.length_cons]
    split
    · have := ih (i + 1) i x (Nat.lt_succ_self i)
      omega
    · have := ih (i + 1) b v (by omega)
      omega

theorem argmaxIdx_lt {l : List ℚ} {i : Nat} (h : argmaxIdx l = some i) :
    i < l.length := by
  cases l with
  | nil => simp [argmaxIdx] at h
  | cons x xs =>
    simp only [argmaxIdx, Option.some.injEq] at h
    have := argmaxFrom_lt xs 1 0 x (by omega)
    simp only [List.length_cons]
    omega

/-- C4: the transcoder adapter `convert_webm_to_wav` is a total Boolean
function of the invocation outcome (it never propagates an exception), and
for every pair of paths it returns `true` exactly when the ffmpeg process ran
and exited with code zero; a missing tool, a non-zero exit code, and any
other invocation exception all yield `false`. -/
theorem convert_webm_to_wav_true_iff_exit_zero
    (webmPath wavPath : String) (sr : Nat) (o : FfmpegOutcome) :
    convert_webm_to_wav webmPath wavPath sr o = true ↔
      ∃ stderr, o = .ranWith 0 stderr := by
  cases o with
  | ranWith code s =>
    by_cases hc : code = 0 <;> simp [convert_webm_to_wav, hc]
  | fileNotFound => simp [convert_webm_to_wav]
  | otherExc m => simp [convert_webm_to_wav]

/-- C5: `load_and_extract_feature` returns `None` exactly when the
load/inference pipeline raised an exception, and a zero-frame embedding
array yields a zero vector (`np.zeros(128)`), not `None`, so failure is
distinguishable from a legitimate zero-vector result. -/
theorem load_and_extract_feature_none_iff_raises (o : ExtractOutcome) :
    (load_and_extract_feature o = none ↔ extractionRaises o = true)
    ∧ load_and_extract_feature (.embeds (.two [])) =
        some (List.replicate EMBEDDING_SIZE 0) := by
  refine ⟨?_, by simp [load_and_extract_feature]⟩
  cases o with
  | raises m => simp [load_and_extract_feature, extractionRaises]
  | embeds arr =>
    cases arr with
    | two e =>
      cases e with
      | nil => simp [load_and_extract_feature, extractionRaises]
      | cons r rs => simp [load_and_extract_feature, extractionRaises]
    | three e3 =>
      match e3 with
      | [] => simp [load_and_extract_feature, extractionRaises, squeezeBatch]
      | [m] =>
        simp only [load_and_extract_feature, extractionRaises, squeezeBatch]
        split <;> simp
      | m1 :: m2 :: rest =>
        simp [load_and_extract_feature, extractionRaises, squeezeBatch]

/-- A 200 response can only come from the final branch of the try-block:
the classifier produced an output row `probs`, its argmax `idx` is a valid
label index, `probs` is at least as wide as the label set, and the body is
the three-key success object. -/
theorem predictTry_200_inv (env : ReqEnv) (h : (predictTry env).status = 200) :
    ∃ probs idx, env.classOut = .output probs
      ∧ argmaxIdx probs = some idx
      ∧ idx < NUM_CLASSES
      ∧ NUM_CLASSES ≤ probs.length
      ∧ predictTry env =
          ⟨200,
            [("predicted_class", .s (CLASS_NAMES.getD idx "")),
             ("probabilities", .arr probs),
             ("probabilities_dict", .obj (CLASS_NAMES.zip (probs.take NUM_CLASSES)))],
            true, true, true, true, true, true, true⟩ := by
  revert h
  unfold predictTry
  repeat' split
  all_goals intro h
  all_goals try simp at h
  refine ⟨_, _, ?_, ?_, ?_, ?_, rfl⟩ <;> assumption

/-- Index-for-index agreement of the label list, a wide-enough probability
list, and their zip (the probabilities dict). -/
theorem zip_take_get (probs : List ℚ) (i : Nat) (hi : i < NUM_CLASSES)
    (hle : NUM_CLASSES ≤ probs.length) :
    ∃ p, probs.get? i = some p
      ∧ (CLASS_NAMES.zip (probs.take NUM_CLASSES)).get? i =
          some (CLASS_NAMES.getD i "", p) := by
  have hi6 : i < 6 := hi
  rcases probs with _ | ⟨a0, _ | ⟨a1, _ | ⟨a2, _ | ⟨a3, _ | ⟨a4, _ | ⟨a5, rest⟩⟩⟩⟩⟩⟩
  · exact absurd hle (by simp [NUM_CLASSES, CLASS_NAMES])
  · exact absurd hle (by simp [NUM_CLASSES, CLASS_NAMES])
  · exact absurd hle (by simp [NUM_CLASSES, CLASS_NAMES])
  · exact absurd hle (by simp [NUM_CLASSES, CLASS_NAMES])
  · exact absurd hle (by simp [NUM_CLASSES, CLASS_NAMES])
  · exact absurd hle (by simp [NUM_CLASSES, CLASS_NAMES])
  · interval_cases i <;> exact ⟨_, rfl, rfl⟩

/-- The try-block never reports an existing temp file while the path
variables are still unassigned (`None`). -/
theorem predictTry_files_pathsSet (env : ReqEnv) :
    ((predictTry env).webm = true → (predictTry env).pathsSet = true)
    ∧ ((predictTry env).wav = true → (predictTry env).pathsSet = true) := by
  unfold predictTry
  repeat' split
  all_goals simp

/-- The try-block reads none of the `os.remove` behaviour fields. -/
theorem predictTry_ignores_remove (env : ReqEnv) (w v : Bool) :
    predictTry { env with removeWebmFails := w, removeWavFails := v } =
      predictTry env := by
  cases env
  rfl

/-- C1: in every 200 response of `POST /predict`, `predicted_class` is the
label at the argmax index of the returned `probabilities` list, and
`probabilities_dict` maps the i-th label of `CLASS_NAMES` to the i-th entry
of `probabilities` for every index i of the label set. -/
theorem predict_ok_argmax_and_dict_agree (env : ReqEnv)
    (h : (predict_audio env).status = 200) :
    ∃ probs idx,
      argmaxIdx probs = some idx
      ∧ getKey "probabilities" (predict_audio env).body = some (.arr probs)
      ∧ getKey "predicted_class" (predict_audio env).body =
          some (.s (CLASS_NAMES.getD idx ""))
      ∧ getKey "probabilities_dict" (predict_audio env).body =
          some (.obj (CLASS_NAMES.zip (probs.take NUM_CLASSES)))
      ∧ ∀ i, i < NUM_CLASSES →
          ∃ p, probs.get? i = some p
            ∧ (CLASS_NAMES.zip (probs.take NUM_CLASSES)).get? i =
                some (CLASS_NAMES.getD i "", p) := by
  have hs : (predictTry env).status = 200 := h
  obtain ⟨probs, idx, _, harg, _, hle, hpre⟩ := predictTry_200_inv env hs
  refine ⟨probs, idx, harg, ?_, ?_, ?_, fun i hi => zip_take_get probs i hi hle⟩
  all_goals show getKey _ (predictTry env).body = _
  all_goals rw [hpre]
  all_goals simp [getKey]

/-- C1 witness: on a concrete happy-path environment the 200-response
agreement holds. -/
theorem predict_ok_argmax_and_dict_agree_witness :
    ∃ probs idx,
      argmaxIdx probs = some idx
      ∧ getKey "probabilities" (predict_audio okEnv).body = some (.arr probs)
      ∧ getKey "predicted_class" (predict_audio okEnv).body =
          some (.s (CLASS_NAMES.getD idx ""))
      ∧ getKey "probabilities_dict" (predict_audio okEnv).body =
          some (.obj (CLASS_NAMES.zip (probs.take NUM_CLASSES)))
      ∧ ∀ i, i < NUM_CLASSES →
          ∃ p, probs.get? i = some p
            ∧ (CLASS_NAMES.zip (probs.take NUM_CLASSES)).get? i =
                some (CLASS_NAMES.getD i "", p) :=
  predict_ok_argmax_and_dict_agree okEnv (by decide)

/-- C2 counterexample: a classifier artifact whose output row has 7 entries
still yields a 200 response, and the returned `probabilities` list has 7
entries, not `NUM_CLASSES = 6`. -/
theorem predict_probs_width_counterexample :
    (predict_audio wideEnv).status = 200
    ∧ getKey "probabilities" (predict_audio wideEnv).body =
        some (.arr [Rat.mk' 1 10, Rat.mk' 1 10, Rat.mk' 1 10, Rat.mk' 1 10,
          Rat.mk' 1 10, Rat.mk' 2 5, Rat.mk' 1 10])
    ∧ ([Rat.mk' 1 10, Rat.mk' 1 10, Rat.mk' 1 10, Rat.mk' 1 10,
          Rat.mk' 1 10, Rat.mk' 2 5, Rat.mk' 1 10] : List ℚ).length ≠ NUM_CLASSES := by
  decide

/-- C2 (amended): in every 200 response the `probabilities` list is exactly
the classifier's output row, so it has at least `NUM_CLASSES` entries, and
exactly `NUM_CLASSES` entries only when the classifier's output width is 6. -/
theorem predict_ok_probs_length (env : ReqEnv)
    (h : (predict_audio env).status = 200) :
    ∃ probs, getKey "probabilities" (predict_audio env).body = some (.arr probs)
      ∧ env.classOut = .output probs
      ∧ NUM_CLASSES ≤ probs.length := by
  have hs : (predictTry env).status = 200 := h
  obtain ⟨probs, idx, hco, _, _, hle, hpre⟩ := predictTry_200_inv env hs
  refine ⟨probs, ?_, hco, hle⟩
  show getKey _ (predictTry env).body = _
  rw [hpre]
  simp [getKey]

/-- C2 witness: with a width-6 classifier the returned list has 6 entries. -/
theorem predict_ok_probs_length_witness :
    ∃ probs, getKey "probabilities" (predict_audio okEnv).body = some (.arr probs)
      ∧ okEnv.classOut = .output probs
      ∧ NUM_CLASSES ≤ probs.length :=
  predict_ok_probs_length okEnv (by decide)

/-- C3: whenever the OS honours the delete requests, neither temp file
exists after the handler finishes, on every exit path; and a failing
`os.remove` is swallowed — it never changes the response's status or body. -/
theorem temp_files_removed_on_every_exit (env : ReqEnv)
    (hw : env.removeWebmFails = false) (hv : env.removeWavFails = false) :
    (predict_audio env).webmExists = false
    ∧ (predict_audio env).wavExists = false
    ∧ ∀ w v : Bool,
        (predict_audio { env with removeWebmFails := w, removeWavFails := v }).status =
          (predict_audio env).status
        ∧ (predict_audio { env with removeWebmFails := w, removeWavFails := v }).body =
          (predict_audio env).body := by
  have hps := predictTry_files_pathsSet env
  refine ⟨?_, ?_, ?_⟩
  · show ((predictTry env).webm && (!(predictTry env).pathsSet || env.removeWebmFails)) = false
    rw [hw]
    cases hw2 : (predictTry env).webm
    · simp
    · simp [hps.1 hw2]
  · show ((predictTry env).wav && (!(predictTry env).pathsSet || env.removeWavFails)) = false
    rw [hv]
    cases hw2 : (predictTry env).wav
    · simp
    · simp [hps.2 hw2]
  · intro w v
    constructor
    · show (predictTry _).status = (predictTry env).status
      rw [predictTry_ignores_remove]
    · show (predictTry _).body = (predictTry env).body
      rw [predictTry_ignores_remove]

/-- C3 witness: on the concrete happy-path environment both temp files are
gone afterwards and remove failures would not change the response. -/
theorem temp_files_removed_witness :
    (predict_audio okEnv).webmExists = false
    ∧ (predict_audio okEnv).wavExists = false
    ∧ ∀ w v : Bool,
        (predict_audio { okEnv with removeWebmFails := w, removeWavFails := v }).status =
          (predict_audio okEnv).status
        ∧ (predict_audio { okEnv with removeWebmFails := w, removeWavFails := v }).body =
          (predict_audio okEnv).body :=
  temp_files_removed_on_every_exit okEnv rfl rfl

/-- When the extraction pipeline does not raise, `load_and_extract_feature`
returns some vector. -/
theorem load_some_of_not_raises (o : ExtractOutcome)
    (h : extractionRaises o = false) :
    ∃ f, load_and_extract_feature o = some f := by
  cases o with
  | raises m => simp [extractionRaises] at h
  | embeds arr =>
    cases arr with
    | two e =>
      cases e with
      | nil =>
        exact ⟨List.replicate EMBEDDING_SIZE 0, by simp [load_and_extract_feature]⟩
      | cons r rs =>
        exact ⟨meanAxis0 (r :: rs), by simp [load_and_extract_feature]⟩
    | three e3 =>
      have h1 : e3.length = 1 := by simpa [extractionRaises] using h
      rcases e3 with _ | ⟨m, _ | ⟨m2, r⟩⟩
      · simp at h1
      · by_cases hm : m.length > 0
        · exact ⟨meanAxis0 m, by simp [load_and_extract_feature, squeezeBatch, hm]⟩
        · exact ⟨List.replicate EMBEDDING_SIZE 0,
            by simp [load_and_extract_feature, squeezeBatch, hm]⟩
      · simp at h1

/-- C6: a zero-frame embedding array yields the zero vector of width
`EMBEDDING_SIZE = 128`, and a request whose extraction hit that edge case
still produces a well-formed 200 probability response when the classifier
output has the width of the label set. -/
theorem zero_frames_zero_vector_and_ok_response (env : ReqEnv)
    (hz : env.extract = .embeds (.two []))
    (hfield : env.hasAudioField = true) (hname : env.filename ≠ "")
    (hsave : env.saveRaises = none)
    (hff : ∃ s, env.ffmpeg = .ranWith 0 s)
    (hout : ∃ out, env.classOut = .output out ∧ out.length = NUM_CLASSES) :
    load_and_extract_feature env.extract = some (List.replicate EMBEDDING_SIZE 0)
    ∧ (List.replicate EMBEDDING_SIZE (0 : ℚ)).length = 128
    ∧ (predict_audio env).status = 200
    ∧ (predict_audio env).body.map Prod.fst =
        ["predicted_class", "probabilities", "probabilities_dict"] := by
  obtain ⟨s, hf⟩ := hff
  obtain ⟨out, hco, hlen⟩ := hout
  obtain ⟨idx, hidx⟩ : ∃ idx, argmaxIdx out = some idx := by
    rcases out with _ | ⟨o, os⟩
    · exact absurd hlen (by decide)
    · exact ⟨_, rfl⟩
  have hlt : idx < NUM_CLASSES := by rw [← hlen]; exact argmaxIdx_lt hidx
  have hle : NUM_CLASSES ≤ out.length := le_of_eq hlen.symm
  refine ⟨by rw [hz]; simp [load_and_extract_feature],
    by simp [EMBEDDING_SIZE], ?_, ?_⟩
  · show (predictTry env).status = 200
    unfold predictTry
    simp [hfield, hname, hsave, hf, convert_webm_to_wav, hz,
      load_and_extract_feature, hco, hidx, hlt, hle]
  · show (predictTry env).body.map Prod.fst = _
    unfold predictTry
    simp [hfield, hname, hsave, hf, convert_webm_to_wav, hz,
      load_and_extract_feature, hco, hidx, hlt, hle]

/-- C6 witness: the concrete happy-path environment has a zero-frame
embedding and still gets the well-formed 200 response. -/
theorem zero_frames_zero_vector_witness :
    load_and_extract_feature okEnv.extract = some (List.replicate EMBEDDING_SIZE 0)
    ∧ (List.replicate EMBEDDING_SIZE (0 : ℚ)).length = 128
    ∧ (predict_audio okEnv).status = 200
    ∧ (predict_audio okEnv).body.map Prod.fst =
        ["predicted_class", "probabilities", "probabilities_dict"] :=
  zero_frames_zero_vector_and_ok_response okEnv rfl rfl (by decide) rfl
    ⟨"", rfl⟩
    ⟨[Rat.mk' 1 10, Rat.mk' 1 10, Rat.mk' 1 10, Rat.mk' 1 10, Rat.mk' 1 10,
      Rat.mk' 1 2], rfl, rfl⟩

/-- C7: a request with no `audio_file` part, or with an empty filename,
gets a 400 response whose body has an `error` key, and no temp file is
written, no transcoding is attempted, and no inference runs. -/
theorem missing_or_empty_upload_400 (env : ReqEnv)
    (h : env.hasAudioField = false ∨ env.filename = "") :
    (predict_audio env).status = 400
    ∧ (∃ v, getKey "error" (predict_audio env).body = some v)
    ∧ (predict_audio env).savedUpload = false
    ∧ (predict_audio env).ranTranscode = false
    ∧ (predict_audio env).ranExtract = false
    ∧ (predict_audio env).ranPredict = false
    ∧ (predict_audio env).webmExists = false
    ∧ (predict_audio env).wavExists = false := by
  unfold predict_audio predictTry
  rcases h with h | h
  · simp [h, getKey]
  · cases hb : env.hasAudioField <;> simp [hb, h, getKey]

/-- C7 witness: concrete request without the `audio_file` part. -/
theorem missing_upload_400_witness :
    (predict_audio { okEnv with hasAudioField := false }).status = 400
    ∧ (∃ v, getKey "error" (predict_audio { okEnv with hasAudioField := false }).body = some v)
    ∧ (predict_audio { okEnv with hasAudioField := false }).savedUpload = false
    ∧ (predict_audio { okEnv with hasAudioField := false }).ranTranscode = false
    ∧ (predict_audio { okEnv with hasAudioField := false }).ranExtract = false
    ∧ (predict_audio { okEnv with hasAudioField := false }).ranPredict = false
    ∧ (predict_audio { okEnv with hasAudioField := false }).webmExists = false
    ∧ (predict_audio { okEnv with hasAudioField := false }).wavExists = false :=
  missing_or_empty_upload_400 { okEnv with hasAudioField := false } (Or.inl rfl)

/-- C8: when the ffmpeg process exits non-zero on a valid upload, the
endpoint answers 500 with an `error` message that names the conversion
failure. -/
theorem transcode_failure_500 (env : ReqEnv)
    (hfield : env.hasAudioField = true) (hname : env.filename ≠ "")
    (hsave : env.saveRaises = none)
    (hff : ∃ code s, env.ffmpeg = .ranWith code s ∧ code ≠ 0) :
    (predict_audio env).status = 500
    ∧ getKey "error" (predict_audio env).body = some (.s ERR_CONVERT)
    ∧ ERR_CONVERT =
        "Failed to convert audio with ffmpeg. Ensure ffmpeg is installed and accessible from PATH." := by
  obtain ⟨code, s, hf, hc⟩ := hff
  refine ⟨?_, ?_, rfl⟩
  · show (predictTry env).status = 500
    unfold predictTry
    simp [hfield, hname, hsave, hf, convert_webm_to_wav, hc]
  · show getKey "error" (predictTry env).body = _
    unfold predictTry
    simp [hfield, hname, hsave, hf, convert_webm_to_wav, hc, getKey]

/-- C8 witness: concrete environment whose ffmpeg run exits with code 1. -/
theorem transcode_failure_500_witness :
    (predict_audio { okEnv with ffmpeg := .ranWith 1 "conversion failed" }).status = 500
    ∧ getKey "error"
        (predict_audio { okEnv with ffmpeg := .ranWith 1 "conversion failed" }).body =
        some (.s ERR_CONVERT)
    ∧ ERR_CONVERT =
        "Failed to convert audio with ffmpeg. Ensure ffmpeg is installed and accessible from PATH." :=
  transcode_failure_500 { okEnv with ffmpeg := .ranWith 1 "conversion failed" }
    rfl (by decide) rfl ⟨1, "conversion failed", rfl, by decide⟩

/-- C9: on a valid pipeline, a classifier output narrower than the label
set, or one whose argmax lies at or beyond the label set's length, makes the
out-of-range lookup raise; the generic catch turns that into a 500 response
with the `error` key `Internal server error` and a `details` field. -/
theorem classifier_width_mismatch_500 (env : ReqEnv)
    (hfield : env.hasAudioField = true) (hname : env.filename ≠ "")
    (hsave : env.saveRaises = none)
    (hff : ∃ s, env.ffmpeg = .ranWith 0 s)
    (hex : extractionRaises env.extract = false)
    (hout : ∃ out, env.classOut = .output out ∧
        (out.length < NUM_CLASSES ∨ ∃ i, argmaxIdx out = some i ∧ NUM_CLASSES ≤ i)) :
    (predict_audio env).status = 500
    ∧ getKey "error" (predict_audio env).body = some (.s ERR_INTERNAL)
    ∧ ∃ d, getKey "details" (predict_audio env).body = some (.s d) := by
  obtain ⟨s, hf⟩ := hff
  obtain ⟨f, hload⟩ := load_some_of_not_raises env.extract hex
  obtain ⟨out, hco, hbad⟩ := hout
  have hgoal : (predictTry env).status = 500
      ∧ getKey "error" (predictTry env).body = some (.s ERR_INTERNAL)
      ∧ ∃ d, getKey "details" (predictTry env).body = some (.s d) := by
    unfold predictTry
    rcases hbad with hlt | ⟨i, hargm, hge⟩
    · rcases out with _ | ⟨o, os⟩
      · simp [hfield, hname, hsave, hf, convert_webm_to_wav, hload, hco,
          argmaxIdx, internalErrBody, getKey]
      · have hidx : argmaxFrom os 1 0 o < (o :: os).length :=
          argmaxIdx_lt (l := o :: os) rfl
        have h1 : argmaxFrom os 1 0 o < NUM_CLASSES := lt_trans hidx hlt
        have h2 : ¬ NUM_CLASSES ≤ os.length + 1 := by
          simpa using not_le.mpr hlt
        simp [hfield, hname, hsave, hf, convert_webm_to_wav, hload, hco,
          argmaxIdx, h1, h2, internalErrBody, getKey]
    · have h1 : ¬ i < NUM_CLASSES := not_lt.mpr hge
      simp [hfield, hname, hsave, hf, convert_webm_to_wav, hload, hco,
        hargm, h1, internalErrBody, getKey]
  exact hgoal

/-- C9 witness: a classifier output of width 1 (narrower than the 6-label
set) yields the generic 500 with details. -/
theorem classifier_width_mismatch_500_witness :
    (predict_audio { okEnv with classOut := .output [Rat.mk' 1 2] }).status = 500
    ∧ getKey "error"
        (predict_audio { okEnv with classOut := .output [Rat.mk' 1 2] }).body =
        some (.s ERR_INTERNAL)
    ∧ ∃ d, getKey "details"
        (predict_audio { okEnv with classOut := .output [Rat.mk' 1 2] }).body =
        some (.s d) :=
  classifier_width_mismatch_500 { okEnv with classOut := .output [Rat.mk' 1 2] }
    rfl (by decide) rfl ⟨"", rfl⟩ rfl
    ⟨[Rat.mk' 1 2], rfl, Or.inl (by decide)⟩

/-- C10: every `POST /predict` response has status 200, 400 or 500; every
non-200 body carries an `error` key; and every 200 body has exactly the
three keys `predicted_class`, `probabilities`, `probabilities_dict`. -/
theorem predict_response_shape (env : ReqEnv) :
    ((predict_audio env).status = 200 ∨ (predict_audio env).status = 400 ∨
      (predict_audio env).status = 500)
    ∧ ((predict_audio env).status ≠ 200 →
        ∃ v, getKey "error" (predict_audio env).body = some v)
    ∧ ((predict_audio env).status = 200 →
        (predict_audio env).body.map Prod.fst =
          ["predicted_class", "probabilities", "probabilities_dict"]) := by
  unfold predict_audio predictTry
  repeat' split
  all_goals simp [getKey, internalErrBody]

end Server
